import Mathlib

/- Verification development for the JWST filename scanning scripts
   (scan_jwst_directory.py, scan_jwst_directory_v2.py,
   scan_jwst_directory_v3.py).

   Modelling conventions:
   - Python strings are Lean String values; Python slicing clamps
     out-of-range bounds, while single-character indexing raises
     IndexError.  A raised exception is modelled by a none result of the
     translated function.
   - ASCII data is assumed wherever Python case folding (str.lower) or
     str.isdigit is involved.
   - sqlite reference tables are modelled as in-memory lists of rows;
     cursor.fetchone on SELECT ... WHERE suffix=? is the first row of the
     table whose suffix column equals the key.  -/

/-- Python s.split(sep) for a one-character separator (all separators the
    scripts use are one character): every occurrence splits, empty parts
    are kept, and the empty string yields one empty part. -/
def splitCharAux (sep : Char) : List Char → List (List Char)
  | [] => [[]]
  | c :: t =>
    if c = sep then [] :: splitCharAux sep t
    else
      match splitCharAux sep t with
      | [] => [[c]]
      | h :: rest => (c :: h) :: rest

/-- Python s.split(sep) on strings, one-character separator. -/
def pySplitChar (sep : Char) (s : String) : List String :=
  (splitCharAux sep s.data).map String.mk

/-- Python fullpath.split("/")[-1], as used by both decoders. -/
def pyBasename (fullpath : String) : String := (pySplitChar '/' fullpath).getLastD ""

/-- Extension-stripped filename split on underscores:
    filename.split(".")[0].split("_"), shared by both decoders. -/
def fileChunks (fullpath : String) : List String :=
  pySplitChar '_' ((pySplitChar '.' (pyBasename fullpath)).headD "")

/-- Python s[a:b] slicing (clamping, never raising). -/
def pySlice (s : String) (a b : Nat) : String :=
  String.mk ((s.data.drop a).take (b - a))

/-- Python s[a:] slicing. -/
def pyDrop (s : String) (a : Nat) : String := String.mk (s.data.drop a)

/-- Python s.lower() (ASCII case folding). -/
def pyLower (s : String) : String := String.mk (s.data.map Char.toLower)

/-- Python s.startswith(p). -/
def pyStartswith (s p : String) : Bool := p.data.isPrefixOf s.data

/-- Python s.isdigit(): nonempty and all digit characters. -/
def pyIsDigit (s : String) : Bool := !s.data.isEmpty && s.data.all Char.isDigit

/-- Python truthiness of an optional string (None and "" are falsy). -/
def pyTruthy : Option String → Bool
  | none => false
  | some s => !s.isEmpty

/-- Python repr of one string element inside str(list): quotes added. -/
def pyQuote (s : String) : String := "'" ++ s ++ "'"

/-- Python ", ".join(...) over already-formatted elements. -/
def joinComma : List String → String
  | [] => ""
  | [x] => x
  | x :: y :: rest => x ++ ", " ++ joinComma (y :: rest)

/-- Python str(list_of_strings): brackets around comma-joined reprs.
    (Assumes the elements contain no quote or escape characters, as JWST
    filename segments do not.) -/
def pyStrList (xs : List String) : String :=
  "[" ++ joinComma (xs.map pyQuote) ++ "]"

/-- Python str(list)[1:-1], used for the optical_elements field. -/
def pyStrInner (xs : List String) : String :=
  pySlice (pyStrList xs) 1 ((pyStrList xs).length - 1)

/-- Python substring test needle in hay for strings (membership of a char
    sequence inside another). -/
def hasSub (needle : List Char) : List Char → Bool
  | [] => needle.isPrefixOf []
  | c :: t => needle.isPrefixOf (c :: t) || hasSub needle t

/-- Python needle in hay on strings. -/
def pyInStr (needle hay : String) : Bool := hasSub needle.data hay.data

/-- Insertion step for modelling Python sorted() on strings. -/
def insertSorted (x : String) : List String → List String
  | [] => [x]
  | y :: ys => if x ≤ y then x :: y :: ys else y :: insertSorted x ys

/-- Python sorted() on a list of strings (lexicographic). -/
def pySorted (l : List String) : List String := l.foldr insertSorted []

/-- Numeric value of one decimal digit character. -/
def charDigit (c : Char) : Option Nat :=
  if c.isDigit then some (c.toNat - 48) else none

/-- The %Y component of time.strptime: exactly four digits. -/
def take4Digits : List Char → Option (Nat × List Char)
  | a :: b :: c :: d :: rest =>
    match charDigit a, charDigit b, charDigit c, charDigit d with
    | some x, some y, some z, some w => some (1000 * x + 100 * y + 10 * z + w, rest)
    | _, _, _, _ => none
  | _ => none

/-- The %m component alternatives of time.strptime, in the engine's
    priority order (two-digit 10..12, two-digit 01..09, one digit 1..9). -/
def monthAlts : List Char → List (Nat × List Char)
  | [] => []
  | [c] => if '1' ≤ c ∧ c ≤ '9' then [(c.toNat - 48, [])] else []
  | c :: d :: rest =>
    (if c = '1' ∧ '0' ≤ d ∧ d ≤ '2' then [(10 + (d.toNat - 48), rest)] else []) ++
    (if c = '0' ∧ '1' ≤ d ∧ d ≤ '9' then [(d.toNat - 48, rest)] else []) ++
    (if '1' ≤ c ∧ c ≤ '9' then [(c.toNat - 48, d :: rest)] else [])

/-- The %d component of time.strptime: first matching alternative of
    3[01] | [12]\d | 0[1-9] | [1-9]. -/
def dayAlt : List Char → Option (Nat × List Char)
  | [] => none
  | [c] => if '1' ≤ c ∧ c ≤ '9' then some (c.toNat - 48, []) else none
  | c :: d :: rest =>
    if c = '3' ∧ ('0' ≤ d ∧ d ≤ '1') then some (30 + (d.toNat - 48), rest)
    else if (c = '1' ∨ c = '2') ∧ d.isDigit then
      some (10 * (c.toNat - 48) + (d.toNat - 48), rest)
    else if c = '0' ∧ '1' ≤ d ∧ d ≤ '9' then some (d.toNat - 48, rest)
    else if '1' ≤ c ∧ c ≤ '9' then some (c.toNat - 48, d :: rest)
    else none

/-- Regex backtracking into the month alternatives: the first month
    alternative after which the day pattern matches at all. -/
def tryMonthDay : List (Nat × List Char) → Option (Nat × Nat × List Char)
  | [] => none
  | (m, r) :: alts =>
    match dayAlt r with
    | some (d, r2) => some (m, d, r2)
    | none => tryMonthDay alts

/-- Gregorian leap year rule, as used by datetime.date. -/
def isLeap (y : Nat) : Bool := y % 4 = 0 && (y % 100 ≠ 0 || y % 400 = 0)

/-- Days in a month, as used by datetime.date validation. -/
def daysInMonth (y m : Nat) : Nat :=
  if m = 2 then (if isLeap y then 29 else 28)
  else if m = 4 ∨ m = 6 ∨ m = 9 ∨ m = 11 then 30
  else 31

/-- Calendar validity check performed by datetime.date inside strptime
    (year must be at least 1 for toordinal). -/
def validYmd (y m d : Nat) : Bool :=
  1 ≤ y && 1 ≤ m && m ≤ 12 && 1 ≤ d && d ≤ daysInMonth y m

/-- time.strptime(s, "%Y%m%d"): regex match from the start (with the
    engine's alternation priority), then a leftover-input check and the
    datetime.date calendar validation; any failure raises ValueError,
    modelled as none. -/
def strptimeYmd (s : String) : Option (Nat × Nat × Nat) :=
  match take4Digits s.data with
  | none => none
  | some (y, rest) =>
    match tryMonthDay (monthAlts rest) with
    | none => none
    | some (m, d, r2) =>
      if r2.isEmpty && validYmd y m d then some (y, m, d) else none

/-- Parsed JSON documents, the shape json.load produces. -/
inductive Json where
  | null : Json
  | bool (b : Bool) : Json
  | num (n : Int) : Json
  | str (s : String) : Json
  | arr (elems : List Json) : Json
  | obj (fields : List (String × Json)) : Json

/-- Python d[k] on a JSON object; none models KeyError / TypeError. -/
def Json.getKey (k : String) : Json → Option Json
  | .obj fields => (fields.find? (fun f => f.1 = k)).map (fun f => f.2)
  | _ => none

/-- Extract a JSON string value. -/
def Json.asStr : Json → Option String
  | .str s => some s
  | _ => none

/-- Extract a JSON array value. -/
def Json.asArr : Json → Option (List Json)
  | .arr xs => some xs
  | _ => none

/-- Sequential Option-mapping over a list, modelling a Python loop in
    which any raised exception aborts the whole computation. -/
def optionMapM (f : α → Option β) : List α → Option (List β)
  | [] => some []
  | x :: xs =>
    match f x, optionMapM f xs with
    | some y, some ys => some (y :: ys)
    | _, _ => none

/-- One decoded data-product filename: the attributes JWSTProduct.__init__
    sets (identical in scan_jwst_directory.py and v2).  An attribute the
    code leaves at None, or never assigns on the short-filename path, is
    modelled as none. -/
structure ProductRecord where
  filename : String
  asn_number : Option String := none
  member_of : Option String := none
  program_id : Option String := none
  instrument : Option String := none
  detector : Option String := none
  optical_elements : Option String := none
  target_id : Option String := none
  source_id : Option String := none
  obs_number : Option String := none
  visit_number : Option String := none
  visit_group : Option String := none
  parallel_seq : Option String := none
  activity_number : Option String := none
  exposure_number : Option String := none
  suffix : Option String := none
  description : Option String := none
  units : Option String := none
  level : Option String := none
  formatted : Bool
deriving Repr, DecidableEq

/-- One decoded association filename: the attributes
    JWSTAssociation.__init__ sets.  The datetime attribute stores the
    (year, month, day) triple recovered by strptime, standing for the
    strftime-formatted date string the code keeps.  The members attribute
    holds the expname values read from the manifest. -/
structure AssociationRecord where
  filename : String
  program_id : Option String := none
  ac_id : Option String := none
  datetime : Option (Nat × Nat × Nat) := none
  pipeline_element : Option String := none
  number : Option String := none
  members : List Json := []
  formatted : Bool

/-- Fields drawn from segment 0 of a product filename. -/
structure Seg0 where
  program_id : Option String := none
  obs_number : Option String := none
  visit_number : Option String := none
  asn_number : Option String := none
deriving Repr, DecidableEq

/-- Fields drawn from segment 1 of a product filename. -/
structure Seg1 where
  target_id : Option String := none
  source_id : Option String := none
  visit_group : Option String := none
  parallel_seq : Option String := none
  activity_number : Option String := none
deriving Repr, DecidableEq

/-- Segment 0 of a product filename: fixed-width slices when it has no
    dash, program/association split when it does. -/
def seg0Info (c0 : String) : Seg0 :=
  let first := pySplitChar '-' c0
  if first.length = 1 then
    { program_id := some (pySlice (first.headD "") 2 7)
      obs_number := some (pySlice (first.headD "") 7 10)
      visit_number := some (pySlice (first.headD "") 10 13) }
  else
    { program_id := some (pyDrop (first.headD "") 2)
      asn_number := some (first.getD 1 "") }

/-- Segment 1 of a product filename: target / source / visit dispatch.
    In the visit branch the code evaluates second[2], which raises
    IndexError when the segment has fewer than three characters; the
    raise is modelled as none. -/
def seg1Info (second : String) : Option Seg1 :=
  if pyStartswith second "t" then some { target_id := some second }
  else if pyStartswith second "s" then some { source_id := some second }
  else
    match second.data[2]? with
    | none => none
    | some c =>
      some { visit_group := some (pySlice second 0 2)
             parallel_seq := some (String.mk [c])
             activity_number := some (pyDrop second 3) }

/-- The raw detector token of step 5: "N/A" on the association-derived
    shape, the first of the middle segments otherwise. -/
def rawDetector0 (asn_number : Option String) (fourth : List String) : String :=
  if pyTruthy asn_number then "N/A" else fourth.headD ""

/-- Detector-prefix inference (step 6 of the product grammar): a
    recognized prefix of the lowercased token sets the instrument and
    keeps the token; otherwise the detector is cleared and the instrument
    is left unchanged. -/
def detectorInference (instrument : Option String) (detector : String) :
    Option String × Option String :=
  let det := pyLower detector
  if pyStartswith det "mir" then (some "miri", some detector)
  else if pyStartswith det "nrc" then (some "nircam", some detector)
  else if pyStartswith det "nis" then (some "niriss", some detector)
  else if pyStartswith det "nrs" then (some "nirspec", some detector)
  else (instrument, none)

/-- Segment 2 dispatch: (exposure_number, instrument) as a pair. -/
def seg2Pair (in_chunks : List String) : Option String × Option String :=
  if pyIsDigit (in_chunks.getD 2 "") then (some (in_chunks.getD 2 ""), none)
  else (none, some (in_chunks.getD 2 ""))

/-- The raw detector token of step 5, computed from the chunk list. -/
def rawDetOf (in_chunks : List String) : String :=
  rawDetector0 (seg0Info (in_chunks.headD "")).asn_number ((in_chunks.drop 3).dropLast)

/-- The record JWSTProduct.__init__ builds once past the length check and
    the segment-1 dispatch. -/
def decodeProductMain (filename : String) (in_chunks : List String) (s1 : Seg1) :
    ProductRecord :=
  let s0 := seg0Info (in_chunks.headD "")
  let fourth := (in_chunks.drop 3).dropLast
  let optical : Option String :=
    if pyTruthy s0.asn_number then some (pyStrInner fourth) else none
  let inf := detectorInference (seg2Pair in_chunks).2 (rawDetOf in_chunks)
  { filename := filename
    asn_number := s0.asn_number
    program_id := s0.program_id
    obs_number := s0.obs_number
    visit_number := s0.visit_number
    target_id := s1.target_id
    source_id := s1.source_id
    visit_group := s1.visit_group
    parallel_seq := s1.parallel_seq
    activity_number := s1.activity_number
    exposure_number := (seg2Pair in_chunks).1
    instrument := inf.1
    detector := inf.2
    optical_elements := optical
    suffix := some (in_chunks.getLastD "")
    formatted := true }

/-- JWSTProduct.__init__ (identical in v1 and v2): decode a data-product
    filename.  none models a raised exception (IndexError on a short
    segment 1 of the visit shape); a record with formatted = false and no
    grammar field is returned when fewer than five segments are found. -/
def decode_product (fullpath : String) : Option ProductRecord :=
  if (fileChunks fullpath).length < 5 then
    some { filename := pyBasename fullpath, formatted := false }
  else
    (seg1Info ((fileChunks fullpath).getD 1 "")).map
      (decodeProductMain (pyBasename fullpath) (fileChunks fullpath))

/-- The raw detector token of step 5 recomputed from the filename alone
    (none when the length check fails and step 5 is never reached). -/
def rawDetector (fullpath : String) : Option String :=
  if (fileChunks fullpath).length < 5 then none
  else some (rawDetOf (fileChunks fullpath))

/-- The program/candidate split of an association filename:
    in_chunks[0][2:].split("-"). -/
def asnFirstParts (fullpath : String) : List String :=
  pySplitChar '-' (pyDrop ((fileChunks fullpath).headD "") 2)

/-- The date token of an association filename:
    in_chunks[1].lower().split("t")[0]. -/
def asnDatePart (fullpath : String) : String :=
  (pySplitChar 't' (pyLower ((fileChunks fullpath).getD 1 ""))).headD ""

/-- The filename-grammar portion of JWSTAssociation.__init__ (identical
    in v1 and v2): decode an association filename.  none models the
    ValueError raised by time.strptime on an unparseable date token. -/
def decode_association (fullpath : String) : Option AssociationRecord :=
  if (fileChunks fullpath).length < 5 then
    some { filename := pyBasename fullpath, formatted := false }
  else if (asnFirstParts fullpath).length = 1 then
    some { filename := pyBasename fullpath, formatted := false }
  else
    match strptimeYmd (asnDatePart fullpath) with
    | none => none
    | some d =>
      some { filename := pyBasename fullpath
             program_id := some ((asnFirstParts fullpath).headD "")
             ac_id := some ((asnFirstParts fullpath).getD 1 "")
             datetime := some d
             pipeline_element := some ((fileChunks fullpath).getD 2 "")
             number := some ((fileChunks fullpath).getD 3 "")
             formatted := true }

/-- The manifest-reading tail of JWSTAssociation.__init__ (v1 and v2):
    json_data["products"][0]["members"], collecting each member's
    expname.  Only the first product entry is consulted; any structural
    failure (missing key, empty products list) raises, modelled none. -/
def membersFirstProduct (j : Json) : Option (List Json) :=
  match (j.getKey "products").bind Json.asArr with
  | none => none
  | some products =>
    match products.head? with
    | none => none
    | some firstProd =>
      match (firstProd.getKey "members").bind Json.asArr with
      | none => none
      | some membersList => optionMapM (Json.getKey "expname") membersList

/-- The member expnames of one product entry of a manifest, as collected
    by v1/v2 for products[0] (and by v3 for every entry). -/
def v1MembersOfProduct (p : Json) : Option (List Json) :=
  match (p.getKey "members").bind Json.asArr with
  | none => none
  | some membersList => optionMapM (Json.getKey "expname") membersList

/-- JWSTAssociation.__init__ including the manifest read: env maps a path
    to its parsed manifest (none when the file is unreadable or not valid
    JSON, both of which raise in v1/v2). -/
def decodeAssociationWith (env : String → Option Json) (fullpath : String) :
    Option AssociationRecord :=
  match decode_association fullpath with
  | none => none
  | some r =>
    if r.formatted then
      match (env fullpath).bind membersFirstProduct with
      | none => none
      | some ms => some { r with members := ms }
    else some r

/-- Loop body of create_product_objects: decode in sorted order, keep the
    formatted records; a raised exception aborts the whole scan. -/
def createProductsGo : List String → Option (List ProductRecord)
  | [] => some []
  | p :: rest =>
    match decode_product p, createProductsGo rest with
    | some r, some others => some (if r.formatted then r :: others else others)
    | _, _ => none

/-- create_product_objects of scan_jwst_directory_v2.py. -/
def create_product_objects (product_list : List String) : Option (List ProductRecord) :=
  createProductsGo (pySorted product_list)

/-- Loop body of create_association_objects. -/
def createAssociationsGo (env : String → Option Json) :
    List String → Option (List AssociationRecord)
  | [] => some []
  | a :: rest =>
    match decodeAssociationWith env a, createAssociationsGo env rest with
    | some r, some others => some (if r.formatted then r :: others else others)
    | _, _ => none

/-- create_association_objects of scan_jwst_directory_v2.py. -/
def create_association_objects (env : String → Option Json) (asn_list : List String) :
    Option (List AssociationRecord) :=
  createAssociationsGo env (pySorted asn_list)

/-- Python x in members for the v2 membership test: the product filename
    (a str) equals a member value exactly; equality with a non-string
    member is always false in Python, so only string members can match. -/
def asnContainsMember (a : AssociationRecord) (filename : String) : Bool :=
  (a.members.filterMap Json.asStr).contains filename

/-- The body of the v2 add_asn_info_to_products loop for one product:
    scan the associations in order and stop at the first whose member
    list contains the product filename (the break statement). -/
def attachMemberOf (asn_objects : List AssociationRecord) (p : ProductRecord) :
    ProductRecord :=
  match asn_objects.find? (fun a => asnContainsMember a p.filename) with
  | some a => { p with member_of := some a.filename }
  | none => p

/-- add_asn_info_to_products of scan_jwst_directory_v2.py. -/
def add_asn_info_to_products (asn_objects : List AssociationRecord)
    (product_objects : List ProductRecord) : List ProductRecord :=
  product_objects.map (attachMemberOf asn_objects)

/-- One association entry of the v3 create_asn_dict result: the members
    field is None when no expname was collected, and otherwise the Python
    str() of the list of expnames. -/
structure AsnV3 where
  filename : String
  members : Option String := none
deriving Repr, DecidableEq

/-- One product entry of the v3 create_fits_dict result, reduced to the
    fields add_asn_info_to_dict touches. -/
structure V3Product where
  filename : String
  used_by : String := ""
deriving Repr, DecidableEq

/-- The v3 membership test for one association: skip a None members
    field, otherwise Python filename in members, a substring test because
    members is the stringified list. -/
def v3Matches (a : AsnV3) (filename : String) : Bool :=
  match a.members with
  | none => false
  | some ms => pyInStr filename ms

/-- The inner loop of v3 add_asn_info_to_dict for one product: scan the
    associations in sorted-key order with no break, overwriting used_by
    on every match (so the last match wins); "" when none matches. -/
def usedByV3 (asn_entries : List AsnV3) (filename : String) : String :=
  asn_entries.foldl (fun acc a => if v3Matches a filename then a.filename else acc) ""

/-- add_asn_info_to_dict of scan_jwst_directory_v3.py, with asn_entries
    already in the sorted-key order the code iterates in. -/
def add_asn_info_to_dict (product_entries : List V3Product)
    (asn_entries : List AsnV3) : List V3Product :=
  product_entries.map (fun p => { p with used_by := usedByV3 asn_entries p.filename })

/-- The products portion of v3 create_asn_dict for one manifest: a
    missing products key was replaced by "" (iterating nothing); a
    non-list, non-empty value raises when the entry is indexed. -/
def v3ProductsIter (j : Json) : Option (List Json) :=
  match j.getKey "products" with
  | none => some []
  | some (.arr xs) => some xs
  | some (.str s) => if s.isEmpty then some [] else none
  | some _ => none

/-- One product entry inside v3 create_asn_dict: p["name"] is read (a
    KeyError aborts), then every member's expname is collected. -/
def v3ProductMembers (p : Json) : Option (List String) :=
  match p.getKey "name" with
  | none => none
  | some _ =>
    match (p.getKey "members").bind Json.asArr with
    | none => none
    | some ms => optionMapM (fun m => (m.getKey "expname").bind Json.asStr) ms

/-- The flattened member expnames v3 create_asn_dict collects across all
    entries of the products list. -/
def asnMembersV3 (j : Json) : Option (List String) :=
  match v3ProductsIter j with
  | none => none
  | some ps =>
    match optionMapM v3ProductMembers ps with
    | none => none
    | some mss => some mss.flatten

/-- The members field v3 stores: None when nothing was collected, the
    Python str() of the list otherwise. -/
def v3MembersField (ms : List String) : Option String :=
  if ms.isEmpty then none else some (pyStrList ms)

/-- The v3 create_asn_dict loop over manifest paths: a body that does not
    parse as JSON (env gives none, the JSONDecodeError / UnicodeDecodeError
    handlers) is logged and skipped, so that association is dropped from
    the results without crashing; a parsed manifest contributes its
    filename and stringified member list, and a structural error inside
    the products loop raises. -/
def create_asn_dict (env : String → Option Json) :
    List String → Option (List (String × Option String))
  | [] => some []
  | fp :: rest =>
    match env fp with
    | none => create_asn_dict env rest
    | some j =>
      match asnMembersV3 j with
      | none => none
      | some ms =>
        match create_asn_dict env rest with
        | none => none
        | some others => some ((pyBasename fp, v3MembersField ms) :: others)

/-- An environment in which no manifest body can be read or parsed. -/
def envNoManifest : String → Option Json := fun _ => none

/-- A well-formed association filename whose manifest body is taken to be
    unreadable in the C5 error-handling scenario. -/
def asnPathC5 : String := "jw00002-o002_20220101t123456_image3_002_asn.json"

/-- One row of a reference stage table, as SELECT * returns it:
    (suffix, description, units, level). -/
structure SuffixRow where
  suffix : String
  description : String
  units : String
  level : String
deriving Repr, DecidableEq

/-- The eight stage tables of jwstproducts.db. -/
structure RefTables where
  detector1 : List SuffixRow
  image2 : List SuffixRow
  spec2 : List SuffixRow
  image3 : List SuffixRow
  spec3 : List SuffixRow
  tso3 : List SuffixRow
  ami3 : List SuffixRow
  coron3 : List SuffixRow
deriving Repr, DecidableEq

/-- cursor.fetchone on SELECT * FROM table WHERE suffix=?. -/
def fetchone (table : List SuffixRow) (key : String) : Option SuffixRow :=
  table.find? (fun row => row.suffix = key)

/-- The ordered candidate tables of add_suffix_info_to_products: the six
    base tables, then ami3 when the instrument is ami, else coron3 when
    it is miri or nircam. -/
def candidateTables (instrument : Option String) (ref : RefTables) :
    List (List SuffixRow) :=
  [ref.detector1, ref.image2, ref.spec2, ref.image3, ref.spec3, ref.tso3] ++
    (if instrument = some "ami" then [ref.ami3]
     else if instrument = some "miri" ∨ instrument = some "nircam" then [ref.coron3]
     else [])

/-- The non-None query results, in traversal order (the filtered matches
    dict of v2, whose keys keep insertion order). -/
def suffixMatches (p : ProductRecord) (ref : RefTables) : List SuffixRow :=
  (candidateTables p.instrument ref).filterMap (fun t => fetchone t (p.suffix.getD ""))

/-- The authoritative row v2 picks: matches[list(matches.keys())[-1]],
    the last non-empty query result; none when every query came back
    empty (the Unresolved case). -/
def resolveSuffix (p : ProductRecord) (ref : RefTables) : Option SuffixRow :=
  (suffixMatches p ref).getLast?

/-- Copy the chosen row's description, units and level onto the product. -/
def enrichProduct (p : ProductRecord) (row : SuffixRow) : ProductRecord :=
  { p with description := some row.description
           units := some row.units
           level := some row.level }

/-- The v2 add_suffix_info_to_products loop with Python's for-statement
    semantics over the list being mutated: the iterator index advances
    after each body run, and product_objects.remove(product) shifts the
    remaining elements left, so the element after a removed one is
    skipped.  (JWSTProduct objects are pairwise distinct, so removing the
    current product removes exactly the element at the iterator's
    position.) -/
def add_suffix_info_loop (ref : RefTables) (i : Nat) (l : List ProductRecord) :
    List ProductRecord :=
  if h : i < l.length then
    let p := l.get ⟨i, h⟩
    match resolveSuffix p ref with
    | none => add_suffix_info_loop ref (i + 1) (l.eraseIdx i)
    | some row => add_suffix_info_loop ref (i + 1) (l.set i (enrichProduct p row))
  else l
termination_by l.length - i
decreasing_by
  · simp only [List.length_eraseIdx, h, if_pos]
    omega
  · simp only [List.length_set]
    omega

/-- add_suffix_info_to_products of scan_jwst_directory_v2.py. -/
def add_suffix_info_to_products (product_objects : List ProductRecord)
    (ref_db : RefTables) : List ProductRecord :=
  add_suffix_info_loop ref_db 0 product_objects

/-- A stage-2 imaging reference row for suffix cal. -/
def rowImage2Cal : SuffixRow :=
  { suffix := "cal", description := "2D calibrated exposure", units := "DN",
    level := "2b" }

/-- A stage-3 coronagraphy reference row for suffix cal. -/
def rowCoron3Cal : SuffixRow :=
  { suffix := "cal", description := "coronagraphic calibrated exposure",
    units := "MJy", level := "3" }

/-- Reference tables holding a cal row in both image2 and coron3. -/
def refMiriCal : RefTables :=
  { detector1 := [], image2 := [rowImage2Cal], spec2 := [], image3 := [],
    spec3 := [], tso3 := [], ami3 := [], coron3 := [rowCoron3Cal] }

/-- A decoded miri product with suffix cal. -/
def pMiriCal : ProductRecord :=
  { filename := "jw00001001001_01101_00001_mirimage_cal.fits",
    instrument := some "miri", detector := some "mirimage",
    suffix := some "cal", formatted := true }

/-- Empty reference tables: every suffix query returns no row. -/
def refEmpty : RefTables :=
  { detector1 := [], image2 := [], spec2 := [], image3 := [], spec3 := [],
    tso3 := [], ami3 := [], coron3 := [] }

/-- First of two consecutive unresolvable products. -/
def pBogus1 : ProductRecord :=
  { filename := "jw00001001001_01101_00001_nrca1_bogus.fits",
    instrument := some "nircam", suffix := some "bogus", formatted := true }

/-- Second of two consecutive unresolvable products. -/
def pBogus2 : ProductRecord :=
  { filename := "jw00001001001_01101_00002_nrca1_bogus.fits",
    instrument := some "nircam", suffix := some "bogus", formatted := true }

/-- An association whose manifest lists p_cal.fits, first in sorted order. -/
def asnFirst : AssociationRecord :=
  { filename := "jw00001-a_20220101t000000_image3_001_asn.json",
    members := [Json.str "p_cal.fits"], formatted := true }

/-- An association whose manifest also lists p_cal.fits, last in sorted
    order. -/
def asnLast : AssociationRecord :=
  { filename := "jw00001-b_20220101t000000_image3_002_asn.json",
    members := [Json.str "p_cal.fits"], formatted := true }

/-- The product both associations claim. -/
def pMember : ProductRecord := { filename := "p_cal.fits", formatted := true }

/-- v3 association entry listing one full member filename (stringified). -/
def v3Asn : AsnV3 :=
  { filename := "jw00001-a_20220101t000000_image3_001_asn.json",
    members := some (pyStrList ["jw00001_nrca1_cal.fits"]) }

/-- v3 association entries for the last-wins check. -/
def v3AsnA : AsnV3 :=
  { filename := "jw00001-a_20220101t000000_image3_001_asn.json",
    members := some (pyStrList ["p_cal.fits"]) }

/-- Second v3 association entry claiming the same member. -/
def v3AsnB : AsnV3 :=
  { filename := "jw00001-b_20220101t000000_image3_002_asn.json",
    members := some (pyStrList ["p_cal.fits"]) }

/-- Manifest product entry whose members list expname a.fits. -/
def jsonProdA : Json :=
  Json.obj [("name", Json.str "prodA"),
            ("members", Json.arr [Json.obj [("expname", Json.str "a.fits")]])]

/-- Manifest product entry whose members list expname b.fits. -/
def jsonProdB : Json :=
  Json.obj [("name", Json.str "prodB"),
            ("members", Json.arr [Json.obj [("expname", Json.str "b.fits")]])]

/-- A well-formed manifest with two product entries. -/
def jsonTwoProducts : Json := Json.obj [("products", Json.arr [jsonProdA, jsonProdB])]

/-- The record decode_product yields for the exposure-shaped nircam file
    used as the C9 witness. -/
def rC9 : ProductRecord :=
  { filename := "jw12345001001_01101_00001_nrca1_cal.fits",
    program_id := some "12345", obs_number := some "001",
    visit_number := some "001", visit_group := some "01",
    parallel_seq := some "1", activity_number := some "01",
    exposure_number := some "00001", instrument := some "nircam",
    detector := some "nrca1", suffix := some "cal", formatted := true }

/-- The record decode_product yields for the association-shaped file used
    as the C10 witness. -/
def rC10 : ProductRecord :=
  { filename := "jw00001-o001_t001_nircam_clear-f090w_i2d.fits",
    program_id := some "00001", asn_number := some "o001",
    target_id := some "t001", instrument := some "nircam",
    optical_elements := some (pyStrInner ["clear-f090w"]),
    suffix := some "i2d", formatted := true }

/-- One unfolding of the v2 suffix loop for a single resolved product. -/
theorem add_suffix_loop_singleton (ref : RefTables) (p : ProductRecord)
    (row : SuffixRow) (h : resolveSuffix p ref = some row) :
    add_suffix_info_to_products [p] ref = [enrichProduct p row] := by
  rw [add_suffix_info_to_products, add_suffix_info_loop]
  simp only [List.length_singleton, Nat.zero_lt_one, dif_pos, List.get_eq_getElem,
    List.getElem_singleton, h, List.set_cons_zero]
  rw [add_suffix_info_loop]
  simp

/-- C1: when one or more candidate tables match the product's suffix, the
    row of the last matching table in the traversal order (stage-1, stage-2
    imaging, stage-2 spectroscopy, stage-3 imaging, stage-3 spectroscopy,
    stage-3 time-series, then ami3 for instrument ami or coron3 for miri
    and nircam) is the one whose description, units and level are
    assigned; neither the first nor a most specific match is used. -/
theorem C1_last_matching_table_wins (p : ProductRecord) (ref : RefTables)
    (l₁ l₂ : List (List SuffixRow)) (t : List SuffixRow) (row : SuffixRow)
    (horder : candidateTables p.instrument ref = l₁ ++ t :: l₂)
    (hmatch : fetchone t (p.suffix.getD "") = some row)
    (hafter : ∀ t2 ∈ l₂, fetchone t2 (p.suffix.getD "") = none) :
    resolveSuffix p ref = some row ∧
    add_suffix_info_to_products [p] ref = [enrichProduct p row] := by
  have hres : resolveSuffix p ref = some row := by
    rw [resolveSuffix, suffixMatches, horder, List.filterMap_append,
        @List.filterMap_cons_some _ _ (fun tb => fetchone tb (p.suffix.getD ""))
          t l₂ row hmatch, List.filterMap_eq_nil_iff.mpr hafter]
    exact List.getLast?_concat _
  exact ⟨hres, add_suffix_loop_singleton ref p row hres⟩

/-- C1 witness: a miri product with suffix cal, rows present in both the
    stage-2 imaging table and the coronagraphy table, resolves to the
    coronagraphy row (the last table in the traversal order). -/
theorem C1_last_matching_table_wins_witness :
    resolveSuffix pMiriCal refMiriCal = some rowCoron3Cal ∧
    add_suffix_info_to_products [pMiriCal] refMiriCal =
      [enrichProduct pMiriCal rowCoron3Cal] :=
  C1_last_matching_table_wins pMiriCal refMiriCal
    [[], [rowImage2Cal], [], [], [], []] [] [rowCoron3Cal] rowCoron3Cal
    (by decide) (by decide) (by simp)

/-- C3: refuted by the code of v2 add_suffix_info_to_products.  With two
    consecutive unresolvable products, product_objects.remove(product)
    inside the for loop shifts the second one into the slot the iterator
    has already passed, so it is never examined: it survives, unresolved
    and unenriched, in the returned product set. -/
theorem C3_consecutive_unresolved_product_survives :
    add_suffix_info_to_products [pBogus1, pBogus2] refEmpty = [pBogus2] ∧
    resolveSuffix pBogus2 refEmpty = none ∧
    pBogus2.description = none ∧ pBogus2.units = none ∧ pBogus2.level = none := by
  have h1 : resolveSuffix pBogus1 refEmpty = none := by decide
  refine ⟨?_, by decide, by decide, by decide, by decide⟩
  rw [add_suffix_info_to_products, add_suffix_info_loop]
  simp only [List.length_cons, List.length_singleton, List.get_eq_getElem,
    List.getElem_cons_zero, h1, List.eraseIdx_cons_zero, dif_pos,
    Nat.zero_lt_succ]
  rw [add_suffix_info_loop]
  simp

/-- Two distinct character sequences of the same length are never both
    at the front of one string. -/
theorem isPrefixOf_false_of_ne {p q l : List Char}
    (h : p.isPrefixOf l = true) (hlen : p.length = q.length) (hne : p ≠ q) :
    q.isPrefixOf l = false := by
  induction p generalizing q l with
  | nil =>
    cases q with
    | nil => exact absurd rfl hne
    | cons qh qt => simp at hlen
  | cons ph pt ih =>
    cases q with
    | nil => simp at hlen
    | cons qh qt =>
      cases l with
      | nil => simp at h
      | cons lh lt =>
        simp only [List.isPrefixOf_cons₂, Bool.and_eq_true, beq_iff_eq] at h
        obtain ⟨hph, hpt⟩ := h
        subst hph
        by_cases hq : qh = ph
        · subst hq
          have hne2 : pt ≠ qt := by
            intro hcon
            exact hne (by rw [hcon])
          have hlen2 : pt.length = qt.length := by simpa using hlen
          simp [List.isPrefixOf_cons₂, ih hpt hlen2 hne2]
        · simp [List.isPrefixOf_cons₂, hq]

/-- Step 6 on a token whose lowercase form starts with mir. -/
theorem detectorInference_mir (inst : Option String) (det : String)
    (h : pyStartswith (pyLower det) "mir" = true) :
    detectorInference inst det = (some "miri", some det) := by
  simp [detectorInference, h]

/-- Step 6 on a token whose lowercase form starts with nrc. -/
theorem detectorInference_nrc (inst : Option String) (det : String)
    (h : pyStartswith (pyLower det) "nrc" = true) :
    detectorInference inst det = (some "nircam", some det) := by
  have h1 : List.isPrefixOf "nrc".data (pyLower det).data = true := h
  have hm : pyStartswith (pyLower det) "mir" = false :=
    isPrefixOf_false_of_ne h1 (by decide) (by decide)
  simp [detectorInference, h, hm]

/-- Step 6 on a token whose lowercase form starts with nis. -/
theorem detectorInference_nis (inst : Option String) (det : String)
    (h : pyStartswith (pyLower det) "nis" = true) :
    detectorInference inst det = (some "niriss", some det) := by
  have h1 : List.isPrefixOf "nis".data (pyLower det).data = true := h
  have hm : pyStartswith (pyLower det) "mir" = false :=
    isPrefixOf_false_of_ne h1 (by decide) (by decide)
  have hc : pyStartswith (pyLower det) "nrc" = false :=
    isPrefixOf_false_of_ne h1 (by decide) (by decide)
  simp [detectorInference, h, hm, hc]

/-- Step 6 on a token whose lowercase form starts with nrs. -/
theorem detectorInference_nrs (inst : Option String) (det : String)
    (h : pyStartswith (pyLower det) "nrs" = true) :
    detectorInference inst det = (some "nirspec", some det) := by
  have h1 : List.isPrefixOf "nrs".data (pyLower det).data = true := h
  have hm : pyStartswith (pyLower det) "mir" = false :=
    isPrefixOf_false_of_ne h1 (by decide) (by decide)
  have hc : pyStartswith (pyLower det) "nrc" = false :=
    isPrefixOf_false_of_ne h1 (by decide) (by decide)
  have hi : pyStartswith (pyLower det) "nis" = false :=
    isPrefixOf_false_of_ne h1 (by decide) (by decide)
  simp [detectorInference, h, hm, hc, hi]

/-- Step 6 on a token with no recognized lowercase three-letter code. -/
theorem detectorInference_nomatch (inst : Option String) (det : String)
    (hm : pyStartswith (pyLower det) "mir" = false)
    (hc : pyStartswith (pyLower det) "nrc" = false)
    (hi : pyStartswith (pyLower det) "nis" = false)
    (hs : pyStartswith (pyLower det) "nrs" = false) :
    detectorInference inst det = (inst, none) := by
  simp [detectorInference, hm, hc, hi, hs]

/-- C8: detector-prefix inference is total over raw tokens and
    deterministic: case-insensitively, a mir token yields miri, nrc
    yields nircam, nis yields niriss, nrs yields nirspec (the three-letter
    codes are mutually exclusive, so each token maps to exactly one
    instrument), and a token matching none of the prefixes clears the
    detector and leaves the instrument from the segment-2 decode
    unchanged; re-running the inference on a record it produced with a
    surviving detector token changes nothing. -/
theorem C8_detector_inference_total_idempotent (inst : Option String) (det : String) :
    (pyStartswith (pyLower det) "mir" = true →
      detectorInference inst det = (some "miri", some det)) ∧
    (pyStartswith (pyLower det) "nrc" = true →
      detectorInference inst det = (some "nircam", some det)) ∧
    (pyStartswith (pyLower det) "nis" = true →
      detectorInference inst det = (some "niriss", some det)) ∧
    (pyStartswith (pyLower det) "nrs" = true →
      detectorInference inst det = (some "nirspec", some det)) ∧
    (pyStartswith (pyLower det) "mir" = false →
      pyStartswith (pyLower det) "nrc" = false →
      pyStartswith (pyLower det) "nis" = false →
      pyStartswith (pyLower det) "nrs" = false →
      detectorInference inst det = (inst, none)) ∧
    (∀ inst2 det2, detectorInference inst det = (inst2, some det2) →
      detectorInference inst2 det2 = (inst2, some det2)) := by
  refine ⟨detectorInference_mir inst det, detectorInference_nrc inst det,
    detectorInference_nis inst det, detectorInference_nrs inst det,
    detectorInference_nomatch inst det, ?_⟩
  intro inst2 det2 h
  by_cases hm : pyStartswith (pyLower det) "mir" = true
  · rw [detectorInference_mir inst det hm] at h
    obtain ⟨h1, h2⟩ := Prod.mk.injEq .. ▸ h
    obtain rfl := Option.some.inj h2
    rw [← h1]
    exact detectorInference_mir _ det hm
  · by_cases hc : pyStartswith (pyLower det) "nrc" = true
    · rw [detectorInference_nrc inst det hc] at h
      obtain ⟨h1, h2⟩ := Prod.mk.injEq .. ▸ h
      obtain rfl := Option.some.inj h2
      rw [← h1]
      exact detectorInference_nrc _ det hc
    · by_cases hi : pyStartswith (pyLower det) "nis" = true
      · rw [detectorInference_nis inst det hi] at h
        obtain ⟨h1, h2⟩ := Prod.mk.injEq .. ▸ h
        obtain rfl := Option.some.inj h2
        rw [← h1]
        exact detectorInference_nis _ det hi
      · by_cases hs : pyStartswith (pyLower det) "nrs" = true
        · rw [detectorInference_nrs inst det hs] at h
          obtain ⟨h1, h2⟩ := Prod.mk.injEq .. ▸ h
          obtain rfl := Option.some.inj h2
          rw [← h1]
          exact detectorInference_nrs _ det hs
        · rw [detectorInference_nomatch inst det (by simpa using hm)
            (by simpa using hc) (by simpa using hi) (by simpa using hs)] at h
          obtain ⟨h1, h2⟩ := Prod.mk.injEq .. ▸ h
          exact absurd h2.symm (Option.some_ne_none det2)

/-- C8 witness: a mixed-case nircam detector token maps to nircam, an
    unrecognized token clears the detector, and re-running the inference
    on the produced record is the identity. -/
theorem C8_detector_inference_total_idempotent_witness :
    (detectorInference (some "seg2") "NRCA1" = (some "nircam", some "NRCA1")) ∧
    (detectorInference (some "seg2") "foo" = (some "seg2", none)) ∧
    (detectorInference (some "nircam") "NRCA1" = (some "nircam", some "NRCA1")) :=
  ⟨(C8_detector_inference_total_idempotent (some "seg2") "NRCA1").2.1 (by decide),
   ((C8_detector_inference_total_idempotent (some "seg2") "foo").2.2.2.2.1
     (by decide) (by decide) (by decide) (by decide)),
   ((C8_detector_inference_total_idempotent (some "seg2") "NRCA1").2.2.2.2.2
     (some "nircam") "NRCA1"
     ((C8_detector_inference_total_idempotent (some "seg2") "NRCA1").2.1 (by decide)))⟩


/-- A formatted decode result comes from the main branch with a
    successful segment-1 dispatch. -/
theorem decode_product_formatted_eq {fullpath : String} {r : ProductRecord}
    (hdec : decode_product fullpath = some r) (hfmt : r.formatted = true) :
    ¬ (fileChunks fullpath).length < 5 ∧
    ∃ s1, seg1Info ((fileChunks fullpath).getD 1 "") = some s1 ∧
      r = decodeProductMain (pyBasename fullpath) (fileChunks fullpath) s1 := by
  by_cases h5 : (fileChunks fullpath).length < 5
  · rw [decode_product, if_pos h5] at hdec
    obtain rfl := Option.some.inj hdec
    exact Bool.noConfusion hfmt
  · rw [decode_product, if_neg h5] at hdec
    match hs : seg1Info ((fileChunks fullpath).getD 1 "") with
    | none => rw [hs] at hdec; exact absurd hdec (by simp)
    | some s1 =>
      rw [hs, Option.map_some'] at hdec
      exact ⟨h5, s1, rfl, (Option.some.inj hdec).symm⟩

/-- C9 counterexample: the claim says a recognized detector-code token is
    cleared to None after setting the instrument; on this nircam file the
    code sets instrument nircam but leaves detector = nrca1, so the raw
    token is not cleared. -/
theorem C9_counterexample_detector_not_cleared :
    ((decode_product "jw12345001001_01101_00001_nrca1_cal.fits").map
      (fun r => (r.formatted, r.instrument, r.detector))) =
      some (true, some "nircam", some "nrca1") ∧
    some "nrca1" ≠ (none : Option String) := ⟨by decide, by decide⟩

/-- C9 amended: for every product filename that decodes with
    formatted = true, a raw detector token with a recognized prefix
    (mir, nrc, nis, nrs, case-insensitively) sets the instrument to the
    corresponding name and keeps the raw token in the detector field;
    an unrecognized prefix clears the detector to None instead. -/
theorem C9_recognized_prefix_sets_instrument_keeps_detector
    (fullpath : String) (r : ProductRecord) (raw : String)
    (hdec : decode_product fullpath = some r) (hfmt : r.formatted = true)
    (hraw : rawDetector fullpath = some raw) :
    (pyStartswith (pyLower raw) "mir" = true →
      r.instrument = some "miri" ∧ r.detector = some raw) ∧
    (pyStartswith (pyLower raw) "nrc" = true →
      r.instrument = some "nircam" ∧ r.detector = some raw) ∧
    (pyStartswith (pyLower raw) "nis" = true →
      r.instrument = some "niriss" ∧ r.detector = some raw) ∧
    (pyStartswith (pyLower raw) "nrs" = true →
      r.instrument = some "nirspec" ∧ r.detector = some raw) ∧
    (pyStartswith (pyLower raw) "mir" = false →
      pyStartswith (pyLower raw) "nrc" = false →
      pyStartswith (pyLower raw) "nis" = false →
      pyStartswith (pyLower raw) "nrs" = false →
      r.detector = none) := by
  obtain ⟨h5, s1, hs1, hr⟩ := decode_product_formatted_eq hdec hfmt
  rw [rawDetector, if_neg h5] at hraw
  obtain rfl := Option.some.inj hraw
  subst hr
  have einst : (decodeProductMain (pyBasename fullpath) (fileChunks fullpath) s1).instrument
      = (detectorInference (seg2Pair (fileChunks fullpath)).2
          (rawDetOf (fileChunks fullpath))).1 := rfl
  have edet : (decodeProductMain (pyBasename fullpath) (fileChunks fullpath) s1).detector
      = (detectorInference (seg2Pair (fileChunks fullpath)).2
          (rawDetOf (fileChunks fullpath))).2 := rfl
  refine ⟨fun h => ⟨?_, ?_⟩, fun h => ⟨?_, ?_⟩, fun h => ⟨?_, ?_⟩,
    fun h => ⟨?_, ?_⟩, fun hm hc hi hs => ?_⟩
  · rw [einst, detectorInference_mir _ _ h]
  · rw [edet, detectorInference_mir _ _ h]
  · rw [einst, detectorInference_nrc _ _ h]
  · rw [edet, detectorInference_nrc _ _ h]
  · rw [einst, detectorInference_nis _ _ h]
  · rw [edet, detectorInference_nis _ _ h]
  · rw [einst, detectorInference_nrs _ _ h]
  · rw [edet, detectorInference_nrs _ _ h]
  · rw [edet, detectorInference_nomatch _ _ hm hc hi hs]

/-- C9 witness: the nircam file decodes with hypothesis facts discharged
    concretely; the nrc clause yields instrument nircam with the raw
    token kept. -/
theorem C9_recognized_prefix_sets_instrument_keeps_detector_witness :
    decode_product "jw12345001001_01101_00001_nrca1_cal.fits" = some rC9 ∧
    (rC9.instrument = some "nircam" ∧ rC9.detector = some "nrca1") :=
  ⟨by decide,
   (C9_recognized_prefix_sets_instrument_keeps_detector
      "jw12345001001_01101_00001_nrca1_cal.fits" rC9 "nrca1"
      (by decide) (by decide) (by decide)).2.1 (by decide)⟩

/-- C10 counterexample: segment 0 of this filename contains a dash, the
    record decodes formatted, yet the final detector is mirimage rather
    than None — the token after the dash is empty, so asn_number is falsy
    and the code takes the exposure-shaped detector branch. -/
theorem C10_counterexample_dash_with_empty_candidate :
    ((decode_product "jw001-_01101_00001_mirimage_cal.fits").map
      (fun r => (r.formatted, r.detector, r.optical_elements))) =
      some (true, some "mirimage", none) ∧
    ('-' ∈ ((fileChunks "jw001-_01101_00001_mirimage_cal.fits").headD "").data) ∧
    some "mirimage" ≠ (none : Option String) := ⟨by decide, by decide, by decide⟩

/-- C10 amended: for every product filename that decodes with
    formatted = true and whose segment 0 splits on the dash into at least
    two parts with a non-empty second part (a truthy asn_number), the
    forced N/A token matches no detector prefix, so the final detector is
    None and the optical_elements field is populated. -/
theorem C10_assoc_derived_detector_cleared (fullpath : String) (r : ProductRecord)
    (hdec : decode_product fullpath = some r) (hfmt : r.formatted = true)
    (hdash : (pySplitChar '-' ((fileChunks fullpath).headD "")).length ≠ 1)
    (hne : (pySplitChar '-' ((fileChunks fullpath).headD "")).getD 1 "" ≠ "") :
    r.detector = none ∧ r.optical_elements.isSome = true := by
  obtain ⟨h5, s1, hs1, hr⟩ := decode_product_formatted_eq hdec hfmt
  subst hr
  have hasn : (seg0Info ((fileChunks fullpath).headD "")).asn_number
      = some ((pySplitChar '-' ((fileChunks fullpath).headD "")).getD 1 "") := by
    rw [seg0Info]
    simp only [if_neg hdash]
  have htr : pyTruthy (seg0Info ((fileChunks fullpath).headD "")).asn_number = true := by
    rw [hasn]
    have hie : ((pySplitChar '-' ((fileChunks fullpath).headD "")).getD 1 "").isEmpty
        = false := by
      rw [← Bool.not_eq_true]
      intro hcon
      exact hne ((String.isEmpty_iff _).mp hcon)
    simp only [pyTruthy]
    rw [hie]
    rfl
  have hraw : rawDetOf (fileChunks fullpath) = "N/A" := by
    rw [rawDetOf, rawDetector0, htr]
    simp
  constructor
  · have edet : (decodeProductMain (pyBasename fullpath) (fileChunks fullpath) s1).detector
        = (detectorInference (seg2Pair (fileChunks fullpath)).2
            (rawDetOf (fileChunks fullpath))).2 := rfl
    rw [edet, hraw,
      detectorInference_nomatch _ _ (by decide) (by decide) (by decide) (by decide)]
  · have eopt : (decodeProductMain (pyBasename fullpath) (fileChunks fullpath) s1).optical_elements
        = (if pyTruthy (seg0Info ((fileChunks fullpath).headD "")).asn_number
           then some (pyStrInner (((fileChunks fullpath).drop 3).dropLast)) else none) := rfl
    rw [eopt, htr]
    simp

/-- C10 witness: an association-shaped filename with a non-empty token
    after the dash decodes with detector None and populated
    optical_elements. -/
theorem C10_assoc_derived_detector_cleared_witness :
    decode_product "jw00001-o001_t001_nircam_clear-f090w_i2d.fits" = some rC10 ∧
    (rC10.detector = none ∧ rC10.optical_elements.isSome = true) :=
  ⟨by decide,
   C10_assoc_derived_detector_cleared
     "jw00001-o001_t001_nircam_clear-f090w_i2d.fits" rC10
     (by decide) (by decide) (by decide) (by decide)⟩

/-- Segment-1 dispatch succeeds whenever the token starts with t or s or
    has at least three characters. -/
theorem seg1Info_isSome_of (second : String)
    (h : pyStartswith second "t" = true ∨ pyStartswith second "s" = true ∨
         3 ≤ second.length) : (seg1Info second).isSome = true := by
  by_cases ht : pyStartswith second "t" = true
  · simp [seg1Info, ht]
  · by_cases hsw : pyStartswith second "s" = true
    · simp [seg1Info, ht, hsw]
    · have hlen : 3 ≤ second.length := by
        rcases h with h | h | h
        · exact absurd h ht
        · exact absurd h hsw
        · exact h
      match hg : second.data[2]? with
      | none =>
        have h1 := List.getElem?_eq_none_iff.mp hg
        have h2 : 3 ≤ second.data.length := hlen
        exact absurd h2 (by omega)
      | some c => simp [seg1Info, ht, hsw, hg]

/-- C4 counterexample: the claim says the decoders never raise.  The
    product decoder raises IndexError on a five-segment filename whose
    segment 1 is two characters and starts with neither t nor s, and the
    association decoder raises ValueError on an unparseable date token. -/
theorem C4_counterexample_decoders_raise :
    decode_product "jw001_ab_x_y_cal.fits" = none ∧
    (decode_association "jw00001-o001_baddate_image2_001_asn.json").isNone = true :=
  ⟨by decide, by decide⟩

/-- C4 amended: both decoders terminate on every input and return a
    record (formatted = false on the structural violations) except for
    two raising cases kept by the code: decode_product raises when the
    length check passes and segment 1 starts with neither t nor s and has
    fewer than three characters, and decode_association raises when the
    length and dash checks pass but the segment-1 date token does not
    parse as %Y%m%d. -/
theorem C4_decoders_total_outside_raising_cases (fullpath : String)
    (hp : (fileChunks fullpath).length < 5 ∨
          pyStartswith ((fileChunks fullpath).getD 1 "") "t" = true ∨
          pyStartswith ((fileChunks fullpath).getD 1 "") "s" = true ∨
          3 ≤ ((fileChunks fullpath).getD 1 "").length)
    (ha : (fileChunks fullpath).length < 5 ∨
          (asnFirstParts fullpath).length = 1 ∨
          (strptimeYmd (asnDatePart fullpath)).isSome = true) :
    (decode_product fullpath).isSome = true ∧
    (decode_association fullpath).isSome = true := by
  constructor
  · by_cases h5 : (fileChunks fullpath).length < 5
    · rw [decode_product, if_pos h5]
      rfl
    · rw [decode_product, if_neg h5, Option.isSome_map']
      apply seg1Info_isSome_of
      rcases hp with h | h
      · exact absurd h h5
      · exact h
  · by_cases h5 : (fileChunks fullpath).length < 5
    · rw [decode_association, if_pos h5]
      rfl
    · by_cases hd : (asnFirstParts fullpath).length = 1
      · rw [decode_association, if_neg h5, if_pos hd]
        rfl
      · have hst : (strptimeYmd (asnDatePart fullpath)).isSome = true := by
          rcases ha with h | h | h
          · exact absurd h h5
          · exact absurd h hd
          · exact h
        match hs2 : strptimeYmd (asnDatePart fullpath) with
        | none => rw [hs2] at hst; exact absurd hst (by simp)
        | some d =>
          rw [decode_association, if_neg h5, if_neg hd, hs2]
          rfl

/-- C4 witness: a well-formed association filename satisfies both
    side-conditions, and both decoders return a record on it. -/
theorem C4_decoders_total_outside_raising_cases_witness :
    (decode_product "jw00001-o001_20220101t123456_image2_001_asn.json").isSome = true ∧
    (decode_association "jw00001-o001_20220101t123456_image2_001_asn.json").isSome = true :=
  C4_decoders_total_outside_raising_cases
    "jw00001-o001_20220101t123456_image2_001_asn.json" (by decide) (by decide)

/-- Every record kept by the create_product_objects loop is formatted. -/
theorem createProductsGo_formatted (L : List String) (l : List ProductRecord)
    (h : createProductsGo L = some l) : ∀ q ∈ l, q.formatted = true := by
  induction L generalizing l with
  | nil =>
    rw [createProductsGo] at h
    obtain rfl := Option.some.inj h
    intro q hq
    exact absurd hq (List.not_mem_nil q)
  | cons p rest ih =>
    rw [createProductsGo] at h
    cases hd : decode_product p with
    | none => rw [hd] at h; exact Option.noConfusion h
    | some r =>
      cases hr : createProductsGo rest with
      | none => rw [hd, hr] at h; exact Option.noConfusion h
      | some others =>
        rw [hd, hr] at h
        obtain rfl := Option.some.inj h
        intro q hq
        by_cases hf : r.formatted = true
        · rw [if_pos hf] at hq
          rcases List.mem_cons.mp hq with rfl | hmem
          · exact hf
          · exact ih others hr q hmem
        · rw [if_neg hf] at hq
          exact ih others hr q hq

/-- Every record kept by the create_association_objects loop is
    formatted. -/
theorem createAssociationsGo_formatted (env : String → Option Json)
    (L : List String) (l : List AssociationRecord)
    (h : createAssociationsGo env L = some l) : ∀ q ∈ l, q.formatted = true := by
  induction L generalizing l with
  | nil =>
    rw [createAssociationsGo] at h
    obtain rfl := Option.some.inj h
    intro q hq
    exact absurd hq (List.not_mem_nil q)
  | cons p rest ih =>
    rw [createAssociationsGo] at h
    cases hd : decodeAssociationWith env p with
    | none => rw [hd] at h; exact Option.noConfusion h
    | some r =>
      cases hr : createAssociationsGo env rest with
      | none => rw [hd, hr] at h; exact Option.noConfusion h
      | some others =>
        rw [hd, hr] at h
        obtain rfl := Option.some.inj h
        intro q hq
        by_cases hf : r.formatted = true
        · rw [if_pos hf] at hq
          rcases List.mem_cons.mp hq with rfl | hmem
          · exact hf
          · exact ih others hr q hmem
        · rw [if_neg hf] at hq
          exact ih others hr q hq

/-- C7: a filename whose extension-stripped name has fewer than five
    underscore-delimited segments decodes, in both decoders, to a record
    with formatted = false and every grammar-derived field absent; and the
    object-creation filters pass only formatted records on to indexing
    and resolution. -/
theorem C7_short_filenames_unformatted_and_excluded (fullpath : String)
    (h : (fileChunks fullpath).length < 5) :
    decode_product fullpath =
      some { filename := pyBasename fullpath, formatted := false } ∧
    decode_association fullpath =
      some { filename := pyBasename fullpath, formatted := false } ∧
    (∀ paths l, create_product_objects paths = some l →
      ∀ q ∈ l, q.formatted = true) ∧
    (∀ env paths l, create_association_objects env paths = some l →
      ∀ q ∈ l, q.formatted = true) := by
  refine ⟨by rw [decode_product, if_pos h], by rw [decode_association, if_pos h], ?_, ?_⟩
  · intro paths l hl q hq
    exact createProductsGo_formatted _ _ hl q hq
  · intro env paths l hl q hq
    exact createAssociationsGo_formatted _ _ _ hl q hq

/-- C7 witness: a two-segment filename decodes to a bare unformatted
    record in both decoders. -/
theorem C7_short_filenames_unformatted_and_excluded_witness :
    decode_product "a_b.fits" =
      some { filename := "a_b.fits", formatted := false } ∧
    decode_association "a_b.fits" =
      some { filename := "a_b.fits", formatted := false } :=
  ⟨(C7_short_filenames_unformatted_and_excluded "a_b.fits" (by decide)).1,
   (C7_short_filenames_unformatted_and_excluded "a_b.fits" (by decide)).2.1⟩

/-- find? over a concatenation whose front part has no match finds the
    marked element. -/
theorem find?_append_first {α : Type} (p : α → Bool) (l₁ : List α) (a : α)
    (l₂ : List α) (h1 : ∀ b ∈ l₁, p b = false) (h2 : p a = true) :
    (l₁ ++ a :: l₂).find? p = some a := by
  induction l₁ with
  | nil => simpa using List.find?_cons_of_pos l₂ h2
  | cons b t ih =>
    have hb : p b = false := h1 b (List.mem_cons_self b t)
    rw [List.cons_append, List.find?_cons_of_neg _ (by simp [hb])]
    exact ih (fun x hx => h1 x (List.mem_cons_of_mem b hx))

/-- The v3 overwrite fold keeps its accumulator across non-matching
    associations. -/
theorem usedByV3_fold_const (f : String) (l : List AsnV3) (acc : String)
    (h : ∀ b ∈ l, v3Matches b f = false) :
    l.foldl (fun acc a => if v3Matches a f then a.filename else acc) acc = acc := by
  induction l generalizing acc with
  | nil => rfl
  | cons b t ih =>
    have hb := h b (List.mem_cons_self b t)
    rw [List.foldl_cons, if_neg (by simp [hb])]
    exact ih acc (fun x hx => h x (List.mem_cons_of_mem b hx))

/-- C2 amended: the two orchestrations disagree.  v2
    add_asn_info_to_products breaks at the first association whose member
    list holds the product filename, so the FIRST association in the
    sorted order wins; v3 add_asn_info_to_dict scans all associations
    with no break and overwrites used_by, so the LAST matching
    association in the sorted order wins. -/
theorem C2_v2_first_match_wins_v3_last_match_wins :
    (∀ (l₁ : List AssociationRecord) (a : AssociationRecord)
        (l₂ : List AssociationRecord) (p : ProductRecord),
      (∀ b ∈ l₁, asnContainsMember b p.filename = false) →
      asnContainsMember a p.filename = true →
      attachMemberOf (l₁ ++ a :: l₂) p = { p with member_of := some a.filename }) ∧
    (∀ (l₁ : List AsnV3) (a : AsnV3) (l₂ : List AsnV3) (f : String),
      v3Matches a f = true → (∀ b ∈ l₂, v3Matches b f = false) →
      usedByV3 (l₁ ++ a :: l₂) f = a.filename) := by
  constructor
  · intro l₁ a l₂ p h1 h2
    rw [attachMemberOf, find?_append_first _ l₁ a l₂ h1 h2]
  · intro l₁ a l₂ f ha h2
    rw [usedByV3, List.foldl_append, List.foldl_cons, if_pos ha]
    exact usedByV3_fold_const f l₂ a.filename h2

/-- C2 witness: with two associations both claiming p_cal.fits, the v2
    scan attaches the first association's filename and the v3 scan keeps
    the last association's filename. -/
theorem C2_v2_first_match_wins_v3_last_match_wins_witness :
    attachMemberOf [asnFirst, asnLast] pMember =
      { pMember with member_of := some asnFirst.filename } ∧
    usedByV3 [v3AsnA, v3AsnB] "p_cal.fits" = v3AsnB.filename :=
  ⟨C2_v2_first_match_wins_v3_last_match_wins.1 [] asnFirst [asnLast] pMember
     (by simp) (by decide),
   C2_v2_first_match_wins_v3_last_match_wins.2 [v3AsnA] v3AsnB [] "p_cal.fits"
     (by decide) (by simp)⟩

/-- C2 counterexample: the claim says the last association in the
    lexicographic ordering wins for every orchestration; in the v2 scan
    the break statement hands the product to the FIRST matching
    association, although the last one also lists it. -/
theorem C2_counterexample_v2_break_gives_first_association :
    (attachMemberOf [asnFirst, asnLast] pMember).member_of =
      some asnFirst.filename ∧
    asnContainsMember asnLast pMember.filename = true ∧
    asnFirst.filename ≠ asnLast.filename := ⟨by decide, by decide, by decide⟩

/-- String append acts as list append on the underlying characters. -/
theorem data_append (a b : String) : (a ++ b).data = a.data ++ b.data := rfl

/-- A sequence is at the front of itself followed by anything. -/
theorem isPrefixOf_append_self (l t : List Char) : l.isPrefixOf (l ++ t) = true := by
  induction l with
  | nil => simp
  | cons c cs ih => simp [List.isPrefixOf_cons₂, ih]

/-- A front match is a substring match. -/
theorem hasSub_of_isPrefixOf {n h : List Char} (hp : n.isPrefixOf h = true) :
    hasSub n h = true := by
  cases h with
  | nil => simpa [hasSub] using hp
  | cons c t => simp [hasSub, hp]

/-- A substring match survives prepending. -/
theorem hasSub_append_left (pre : List Char) {n h : List Char}
    (hs : hasSub n h = true) : hasSub n (pre ++ h) = true := by
  induction pre with
  | nil => simpa using hs
  | cons c t ih => simp [hasSub, ih]

/-- Every element of a comma-joined list appears contiguously in the
    joined characters. -/
theorem joinComma_mem_decomp {y : String} {l : List String} (h : y ∈ l) :
    ∃ pre post, (joinComma l).data = pre ++ y.data ++ post := by
  induction l with
  | nil => cases h
  | cons x t ih =>
    rcases List.mem_cons.mp h with rfl | hmem
    · cases t with
      | nil => exact ⟨[], [], by simp [joinComma]⟩
      | cons z zs =>
        exact ⟨[], (", " ++ joinComma (z :: zs)).data,
          by simp [joinComma, data_append, List.append_assoc]⟩
    · cases t with
      | nil => cases hmem
      | cons z zs =>
        obtain ⟨pre, post, heq⟩ := ih hmem
        exact ⟨x.data ++ ", ".data ++ pre, post,
          by simp [joinComma, data_append, heq, List.append_assoc]⟩

/-- Every exactly-listed member is a Python substring of the stringified
    member list, so the v3 membership test accepts it. -/
theorem pyInStr_of_mem (x : String) (xs : List String) (h : x ∈ xs) :
    pyInStr x (pyStrList xs) = true := by
  obtain ⟨pre, post, heq⟩ := joinComma_mem_decomp (List.mem_map_of_mem pyQuote h)
  have hdata : (pyStrList xs).data =
      ("[".data ++ pre ++ "'".data) ++ (x.data ++ ("'".data ++ post ++ "]".data)) := by
    simp [pyStrList, data_append, pyQuote, heq, List.append_assoc]
  rw [pyInStr, hdata]
  exact hasSub_append_left _ (hasSub_of_isPrefixOf (isPrefixOf_append_self _ _))

/-- The v3 overwrite fold either keeps its accumulator or returns the
    filename of some matching association. -/
theorem usedByV3_fold_cases (asns : List AsnV3) (f : String) (acc : String) :
    asns.foldl (fun acc a => if v3Matches a f then a.filename else acc) acc = acc ∨
    ∃ a, a ∈ asns ∧ v3Matches a f = true ∧
      asns.foldl (fun acc a => if v3Matches a f then a.filename else acc) acc
        = a.filename := by
  induction asns generalizing acc with
  | nil => exact Or.inl rfl
  | cons b t ih =>
    rw [List.foldl_cons]
    by_cases hb : v3Matches b f = true
    · rw [if_pos hb]
      rcases ih b.filename with h | ⟨a, hmem, hm, heq⟩
      · exact Or.inr ⟨b, List.mem_cons_self b t, hb, h⟩
      · exact Or.inr ⟨a, List.mem_cons_of_mem b hmem, hm, heq⟩
    · rw [if_neg hb]
      rcases ih acc with h | ⟨a, hmem, hm, heq⟩
      · exact Or.inl h
      · exact Or.inr ⟨a, List.mem_cons_of_mem b hmem, hm, heq⟩

/-- C6 amended: the v2 scan attaches member_of by exact filename
    equality with a listed member (no match leaves the record untouched,
    a match attaches some matching association's filename); the v3 scan
    instead tests substring containment of the product filename in the
    stringified member list — an exactly-listed member always passes,
    but so does any proper substring of one (no exact equality there). -/
theorem C6_v2_exact_equality_v3_substring :
    (∀ (asns : List AssociationRecord) (p : ProductRecord),
      (∀ a ∈ asns, asnContainsMember a p.filename = false) →
      attachMemberOf asns p = p) ∧
    (∀ (asns : List AssociationRecord) (p : ProductRecord)
        (a : AssociationRecord), a ∈ asns →
      asnContainsMember a p.filename = true →
      ∃ a2, a2 ∈ asns ∧ asnContainsMember a2 p.filename = true ∧
        (attachMemberOf asns p).member_of = some a2.filename) ∧
    (∀ (asns : List AsnV3) (f : String), usedByV3 asns f ≠ "" →
      ∃ a, a ∈ asns ∧ ∃ ms, a.members = some ms ∧ pyInStr f ms = true) ∧
    (∀ (x : String) (xs : List String), x ∈ xs →
      pyInStr x (pyStrList xs) = true) := by
  refine ⟨?_, ?_, ?_, pyInStr_of_mem⟩
  · intro asns p h
    have hnone : asns.find? (fun a => asnContainsMember a p.filename) = none :=
      List.find?_eq_none.mpr (fun a ha => by simp [h a ha])
    rw [attachMemberOf, hnone]
  · intro asns p a hmem hc
    have hsome : (asns.find? (fun a => asnContainsMember a p.filename)).isSome :=
      List.find?_isSome.mpr ⟨a, hmem, by simp [hc]⟩
    obtain ⟨a2, hfind⟩ := Option.isSome_iff_exists.mp hsome
    refine ⟨a2, List.mem_of_find?_eq_some hfind, by simpa using List.find?_some hfind, ?_⟩
    rw [attachMemberOf, hfind]
  · intro asns f hne
    rcases usedByV3_fold_cases asns f "" with h | ⟨a, hmem, hm, _⟩
    · exact absurd h hne
    · cases hms : a.members with
      | none => rw [v3Matches, hms] at hm; exact Bool.noConfusion hm
      | some ms =>
        rw [v3Matches, hms] at hm
        exact ⟨a, hmem, ms, hms, hm⟩

/-- C6 counterexample: under v3, a product whose filename equals no
    listed member still gets used_by set, because its name is a substring
    of the stringified member list. -/
theorem C6_counterexample_substring_not_exact :
    usedByV3 [v3Asn] "nrca1_cal.fits" = v3Asn.filename ∧
    v3Asn.filename ≠ "" ∧
    "nrca1_cal.fits" ∉ ["jw00001_nrca1_cal.fits"] ∧
    v3Asn.members = some (pyStrList ["jw00001_nrca1_cal.fits"]) :=
  ⟨by decide, by decide, by decide, by decide⟩

/-- C6 witness: the four amended clauses at concrete inputs — an exact
    mismatch leaves v2 untouched, an exact match attaches in v2, a v3 hit
    comes from a substring match, and listed members do substring-match. -/
theorem C6_v2_exact_equality_v3_substring_witness :
    attachMemberOf [asnFirst] { filename := "other.fits", formatted := true } =
      { filename := "other.fits", formatted := true } ∧
    (∃ a2, a2 ∈ [asnFirst] ∧ asnContainsMember a2 pMember.filename = true ∧
      (attachMemberOf [asnFirst] pMember).member_of = some a2.filename) ∧
    (∃ a, a ∈ [v3Asn] ∧ ∃ ms, a.members = some ms ∧
      pyInStr "nrca1_cal.fits" ms = true) ∧
    pyInStr "p_cal.fits" (pyStrList ["p_cal.fits", "q.fits"]) = true :=
  ⟨C6_v2_exact_equality_v3_substring.1 [asnFirst]
     { filename := "other.fits", formatted := true } (by decide),
   C6_v2_exact_equality_v3_substring.2.1 [asnFirst] pMember asnFirst
     (List.mem_singleton.mpr rfl) (by decide),
   C6_v2_exact_equality_v3_substring.2.2.1 [v3Asn] "nrca1_cal.fits" (by decide),
   C6_v2_exact_equality_v3_substring.2.2.2 "p_cal.fits" ["p_cal.fits", "q.fits"]
     (by decide)⟩

/-- A successful optionMapM maps every input element to an output
    element. -/
theorem optionMapM_mem {α β : Type} (f : α → Option β) (l : List α)
    (res : List β) (h : optionMapM f l = some res) :
    ∀ x ∈ l, ∃ y, f x = some y ∧ y ∈ res := by
  induction l generalizing res with
  | nil => intro x hx; cases hx
  | cons a t ih =>
    rw [optionMapM] at h
    cases hfa : f a with
    | none => rw [hfa] at h; exact Option.noConfusion h
    | some y =>
      cases hmt : optionMapM f t with
      | none => rw [hfa, hmt] at h; exact Option.noConfusion h
      | some ys =>
        rw [hfa, hmt] at h
        obtain rfl := Option.some.inj h
        intro x hx
        rcases List.mem_cons.mp hx with rfl | hmem
        · exact ⟨y, hfa, List.mem_cons_self y ys⟩
        · obtain ⟨z, hz1, hz2⟩ := ih ys hmt x hmem
          exact ⟨z, hz1, List.mem_cons_of_mem y hz2⟩

/-- C5 amended: v3 create_asn_dict flattens the member expnames of every
    entry of the manifest's products list into the collected member set,
    while v1/v2 JWSTAssociation.__init__ reads products[0] only — its
    member set is a function of the first product entry alone; and on an
    absent or malformed manifest body v1/v2 raise, losing the association
    instead of degrading the member set to empty, while v3 logs the parse
    error and drops that association from its results without crashing. -/
theorem C5_v3_flattens_all_products_v1_reads_first_only :
    (∀ (j : Json) (ms : List String) (ps : List Json),
      asnMembersV3 j = some ms → v3ProductsIter j = some ps →
      ∀ p ∈ ps, ∀ pm, v3ProductMembers p = some pm → ∀ e ∈ pm, e ∈ ms) ∧
    (∀ (j : Json) (p0 : Json) (rest : List Json),
      (j.getKey "products").bind Json.asArr = some (p0 :: rest) →
      membersFirstProduct j = v1MembersOfProduct p0) ∧
    (∀ (env : String → Option Json) (fullpath : String) (r : AssociationRecord),
      decode_association fullpath = some r → r.formatted = true →
      (env fullpath).bind membersFirstProduct = none →
      decodeAssociationWith env fullpath = none) ∧
    (∀ (env : String → Option Json) (fp : String) (rest : List String),
      env fp = none →
      create_asn_dict env (fp :: rest) = create_asn_dict env rest) := by
  refine ⟨?_, ?_, ?_, ?_⟩
  · intro j ms ps hms hps p hp pm hpm e he
    rw [asnMembersV3, hps] at hms
    have hms2 : (match optionMapM v3ProductMembers ps with
        | none => none
        | some mss => some mss.flatten) = some ms := hms
    cases hmss : optionMapM v3ProductMembers ps with
    | none => rw [hmss] at hms2; exact Option.noConfusion hms2
    | some mss =>
      rw [hmss] at hms2
      obtain rfl := Option.some.inj hms2
      obtain ⟨pm2, hpm2, hpm2mem⟩ := optionMapM_mem _ _ _ hmss p hp
      rw [hpm] at hpm2
      obtain rfl := Option.some.inj hpm2
      exact List.mem_flatten.mpr ⟨pm, hpm2mem, he⟩
  · intro j p0 rest hprod
    rw [membersFirstProduct, hprod]
    rfl
  · intro env fullpath r hdec hfmt hbind
    simp [decodeAssociationWith, hdec, hfmt, hbind]
  · intro env fp rest henv
    rw [create_asn_dict, henv]

/-- C5 counterexample: on a manifest with two product entries, the v1/v2
    member set holds only the first entry's expname — the expname b.fits
    of the second entry is absent, though the flattened set holds it; and
    on an unreadable manifest body, v1/v2 raise (the association object
    is lost rather than its member set degrading to empty) while v3
    drops the association and carries on. -/
theorem C5_counterexample_second_product_lost :
    membersFirstProduct jsonTwoProducts = some [Json.str "a.fits"] ∧
    asnMembersV3 jsonTwoProducts = some ["a.fits", "b.fits"] ∧
    v1MembersOfProduct jsonProdB = some [Json.str "b.fits"] ∧
    "b.fits" ∉
      (((membersFirstProduct jsonTwoProducts).getD []).filterMap Json.asStr) ∧
    (decode_association asnPathC5).map AssociationRecord.formatted = some true ∧
    (decodeAssociationWith envNoManifest asnPathC5).isNone = true ∧
    create_asn_dict envNoManifest [asnPathC5] = some [] :=
  ⟨rfl, rfl, rfl, by decide, by decide, by decide, by decide⟩

/-- C5 witness: on the two-product manifest, b.fits from the second
    entry lands in the v3 flattened member set, the v1 member set is
    determined by the first entry alone, v1/v2 crash on the unreadable
    manifest, and the v3 loop drops that association and continues. -/
theorem C5_v3_flattens_all_products_v1_reads_first_only_witness :
    asnMembersV3 jsonTwoProducts = some ["a.fits", "b.fits"] ∧
    "b.fits" ∈ (["a.fits", "b.fits"] : List String) ∧
    membersFirstProduct jsonTwoProducts = v1MembersOfProduct jsonProdA ∧
    decodeAssociationWith envNoManifest asnPathC5 = none ∧
    create_asn_dict envNoManifest [asnPathC5] = create_asn_dict envNoManifest [] :=
  ⟨rfl,
   C5_v3_flattens_all_products_v1_reads_first_only.1 jsonTwoProducts
     ["a.fits", "b.fits"] [jsonProdA, jsonProdB] rfl rfl jsonProdB
     (List.mem_cons_of_mem _ (List.mem_cons_self _ _)) ["b.fits"] rfl
     "b.fits" (List.mem_cons_self _ _),
   C5_v3_flattens_all_products_v1_reads_first_only.2.1 jsonTwoProducts
     jsonProdA [jsonProdB] rfl,
   C5_v3_flattens_all_products_v1_reads_first_only.2.2.1 envNoManifest asnPathC5
     { filename := asnPathC5, program_id := some "00002", ac_id := some "o002",
       datetime := some (2022, 1, 1), pipeline_element := some "image3",
       number := some "002", formatted := true } rfl rfl rfl,
   C5_v3_flattens_all_products_v1_reads_first_only.2.2.2 envNoManifest
     asnPathC5 [] rfl⟩
